import Mathlib

/-!
Shallow embedding of the soft-titus/shortener core: the shorten/resolve
engine (`app/services/shortener.py`), the Redis cache model
(`app/services/cache.py`), the Postgres store model (`app/services/db.py`)
and the visit-counter flush job (`app/cron/flush_visits.py`).

Python strings are modelled by Lean `String`; the Redis keyspace is split
into the URL-mapping namespace (keys `short:*` and `url:*`, string values)
and the visit-counter namespace (keys `visits:*`, integer values), each an
association list keyed by the full Redis key.  Redis/Postgres availability
is injected through `cacheUp` / `dbUp` flags: a `false` flag makes every
call of that client fail the way the Python client would raise
`RedisError` / `OperationalError`.  Rolled-back writes are modelled by
error results that carry no state, so the caller keeps the old state.
-/

namespace Shortener

/-! ### Association-list maps (Redis keyspaces are finite maps) -/

def kvLookup {α : Type} (m : List (String × α)) (k : String) : Option α :=
  match m with
  | [] => none
  | p :: rest => if p.1 == k then some p.2 else kvLookup rest k

def kvSet {α : Type} : List (String × α) → String → α → List (String × α)
  | [], k, v => [(k, v)]
  | p :: rest, k, v => if p.1 == k then (k, v) :: rest else p :: kvSet rest k v

def kvErase {α : Type} (m : List (String × α)) (k : String) : List (String × α) :=
  m.filter (fun p => !(p.1 == k))

/-- Character-level model of Python `str.startswith`, used both by the
Redis `SCAN visits:*` pattern and by `extract_short_code`. -/
def listStartsWith : List Char → List Char → Bool
  | [], _ => true
  | _ :: _, [] => false
  | p :: ps, c :: cs => p == c && listStartsWith ps cs

/-! ### Store model — `app/services/db.py` -/

/-- One row of the `short_urls` table (migration 756155a3f43e): the unique
constraint is on `short_code` only. `created_at` plays no role in any
claim and is omitted. -/
structure Row where
  short_code : String
  original_url : String
  visits : Int
deriving DecidableEq

abbrev Db := List Row

/-- `PostgresDB.original_url_exists`. -/
def original_url_exists (db : Db) (url : String) : Bool :=
  db.any (fun r => r.original_url == url)

/-- Outcome of `PostgresDB.insert_short_url`; the error constructors carry
no database because the Python code rolls the transaction back
(`conn.rollback()`) before re-raising, leaving the store unchanged. -/
inductive InsertResult
  | inserted (db : Db)
  | uniqueViolation
  | operationalError
deriving DecidableEq

/-- `PostgresDB.insert_short_url`: fails with `UniqueViolation` exactly
when the unique constraint on `short_code` rejects the row, raises
`OperationalError` when Postgres is down, and otherwise appends the new
row with `visits = 0`. -/
def insert_short_url (dbUp : Bool) (db : Db) (short_code original_url : String) :
    InsertResult :=
  if !dbUp then .operationalError
  else if db.any (fun r => r.short_code == short_code) then .uniqueViolation
  else .inserted (db ++ [⟨short_code, original_url, 0⟩])

/-- `PostgresDB.get_original_url`: point lookup, `none` on miss. -/
def get_original_url (db : Db) (short_code : String) : Option String :=
  (db.find? (fun r => r.short_code == short_code)).map (fun r => r.original_url)

/-- `PostgresDB.increment_visits_bulk`: the second component records
whether a pooled connection was acquired (`pool_instance.getconn()` runs
only after the `if not visit_data: return` guard).  A single `UPDATE ...
FROM (VALUES ...)` adds each delta to the matching row; deltas whose code
matches no row are dropped; on `OperationalError` the transaction is
rolled back, so the error result carries no state. -/
def increment_visits_bulk (dbUp : Bool) (db : Db) (visit_data : List (String × Int)) :
    Except Unit Db × Bool :=
  if visit_data.isEmpty then (.ok db, false)
  else if !dbUp then (.error (), true)
  else
    (.ok (db.map (fun r =>
      match kvLookup visit_data r.short_code with
      | some c => { r with visits := r.visits + c }
      | none => r)), true)

/-! ### Cache model — `app/services/cache.py` -/

/-- URL-mapping namespace: keys `short:<code>` and `url:<url>`. -/
abbrev UrlCache := List (String × String)

/-- Visit-counter namespace: keys `visits:<code>`. -/
abbrev VisitMap := List (String × Int)

/-- `RedisClient.set_with_ttl`: best effort, a Redis failure is logged and
swallowed (the write is simply lost); the TTL itself is irrelevant to the
claims and is not modelled. -/
def set_with_ttl (cacheUp : Bool) (m : UrlCache) (key value : String) : UrlCache :=
  if cacheUp then kvSet m key value else m

/-- `RedisClient.get_all_visit_keys`: cursor scan for `visits:*`; returns
`[]` (not an error) when Redis is down. -/
def get_all_visit_keys (cacheUp : Bool) (m : VisitMap) : List String :=
  if cacheUp then
    (m.map Prod.fst).filter (fun k => listStartsWith "visits:".data k.data)
  else []

/-- `RedisClient.get_visit_count`: 0 for an absent key, `none` only on a
Redis failure. -/
def get_visit_count (cacheUp : Bool) (m : VisitMap) (short_code : String) :
    Option Int :=
  if cacheUp then
    some ((kvLookup m ("visits:" ++ short_code)).getD 0)
  else none

/-- `RedisClient.increment_visit_count`: `INCRBY` treats an absent key as
0; returns the new value, or `none` on Redis failure. -/
def increment_visit_count (cacheUp : Bool) (m : VisitMap) (short_code : String)
    (amount : Int) : Option Int × VisitMap :=
  if cacheUp then
    let key := "visits:" ++ short_code
    let newCount := (kvLookup m key).getD 0 + amount
    (some newCount, kvSet m key newCount)
  else (none, m)

/-- `RedisClient.decrement_visit_count`: `DECRBY`, then the key is deleted
when the new value is ≤ 0; the new value is still returned. -/
def decrement_visit_count (cacheUp : Bool) (m : VisitMap) (short_code : String)
    (amount : Int) : Option Int × VisitMap :=
  if cacheUp then
    let key := "visits:" ++ short_code
    let newCount := (kvLookup m key).getD 0 - amount
    let m1 := kvSet m key newCount
    if newCount ≤ 0 then (some newCount, kvErase m1 key) else (some newCount, m1)
  else (none, m)

/-! ### Engine — `app/services/shortener.py` -/

inductive ShortenError
  | originalURLAlreadyExists
  | shortCodeGenerationFailed
  | databaseUnavailable
deriving DecidableEq

inductive ResolveError
  | shortCodeNotFound
  | databaseUnavailable
deriving DecidableEq

/-- Result of the retry loop of `shorten_url` (lines 77–101). -/
inductive LoopResult
  | success (short_code : String) (db : Db)
  | genFailed
  | dbUnavailable
deriving DecidableEq

/-- The retry loop of `ShortenerService.shorten_url` over the attempt
numbers `attempts`, with the store-insert collaborator abstracted as
`insert` (attempt number, current store, candidate code).  A
`UniqueViolation` continues with the store unchanged (the insert was
rolled back), an `OperationalError` stops immediately, an exhausted list
is the `for`/`else` branch raising `ShortCodeGenerationFailed`.  The
second component counts insert attempts actually made. -/
def insert_retry_loop (insert : Nat → Db → String → InsertResult)
    (gen : Nat → String) (db : Db) : List Nat → LoopResult × Nat
  | [] => (.genFailed, 0)
  | attempt :: rest =>
    let short_code := gen attempt
    match insert attempt db short_code with
    | .inserted db' => (.success short_code db', 1)
    | .uniqueViolation =>
      let r := insert_retry_loop insert gen db rest
      (r.1, r.2 + 1)
    | .operationalError => (.dbUnavailable, 1)

/-- `ShortenerService.shorten_url`.  `gen` is the code generator
(`generate_short_code`) indexed by attempt number.  Python truthiness of
the cached string means an empty cached value counts as a miss. -/
def shorten_url (max_retries : Nat) (gen : Nat → String) (cacheUp dbUp : Bool)
    (cache : UrlCache) (db : Db) (original_url : String) :
    Except ShortenError String × UrlCache × Db :=
  let cacheHit :=
    cacheUp && (match kvLookup cache ("url:" ++ original_url) with
                | some v => !(v == "")
                | none => false)
  if cacheHit then (.error .originalURLAlreadyExists, cache, db)
  else if !dbUp then (.error .databaseUnavailable, cache, db)
  else if original_url_exists db original_url then
    (.error .originalURLAlreadyExists, cache, db)
  else
    match insert_retry_loop (fun _ d c => insert_short_url dbUp d c original_url)
        gen db (List.range' 1 max_retries) with
    | (.success short_code db', _) =>
      let cache1 := set_with_ttl cacheUp cache ("short:" ++ short_code) original_url
      let cache2 := set_with_ttl cacheUp cache1 ("url:" ++ original_url) short_code
      (.ok short_code, cache2, db')
    | (.genFailed, _) => (.error .shortCodeGenerationFailed, cache, db)
    | (.dbUnavailable, _) => (.error .databaseUnavailable, cache, db)

/-- `ShortenerService.resolve_short_code`.  The visit-counter namespace is
threaded through so that any effect on it is visible: the Python function
body never touches it. -/
def resolve_short_code (cacheUp dbUp : Bool) (cache : UrlCache) (visits : VisitMap)
    (db : Db) (short_code : String) :
    Except ResolveError String × UrlCache × VisitMap :=
  let hit : Option String :=
    if cacheUp then
      match kvLookup cache ("short:" ++ short_code) with
      | some v => if v == "" then none else some v
      | none => none
    else none
  match hit with
  | some v => (.ok v, cache, visits)
  | none =>
    if !dbUp then (.error .databaseUnavailable, cache, visits)
    else
      match get_original_url db short_code with
      | none => (.error .shortCodeNotFound, cache, visits)
      | some original =>
        let cache1 := set_with_ttl cacheUp cache ("short:" ++ short_code) original
        let cache2 := set_with_ttl cacheUp cache1 ("url:" ++ original) short_code
        (.ok original, cache2, visits)

/-! ### Flush job — `app/cron/flush_visits.py` -/

/-- `extract_short_code`: strip the `visits:` namespace; the bare key
`visits:` and keys in other namespaces are malformed (`None`). -/
def extract_short_code (redis_key : String) : Option String :=
  if listStartsWith "visits:".data redis_key.data then
    let short_code : String := ⟨redis_key.data.drop 7⟩
    if short_code == "" then none else some short_code
  else none

/-- The accumulation loop of `main` (lines 49–61): skip malformed keys,
skip codes whose counter read fails, keep strictly positive counters, in
key order (Python dict insertion order). -/
def compute_visit_data (cacheUp : Bool) (m : VisitMap) (keys : List String) :
    List (String × Int) :=
  keys.foldl (fun acc redis_key =>
    match extract_short_code redis_key with
    | none => acc
    | some short_code =>
      match get_visit_count cacheUp m short_code with
      | none => acc
      | some count => if count > 0 then acc ++ [(short_code, count)] else acc) []

/-- `main` of the flush job: returns the final cache visit namespace and
store. -/
def flush_main (cacheUp dbUp : Bool) (m : VisitMap) (db : Db) : VisitMap × Db :=
  let keys := get_all_visit_keys cacheUp m
  if keys.isEmpty then (m, db)
  else
    let visit_data := compute_visit_data cacheUp m keys
    if visit_data.isEmpty then (m, db)
    else
      match increment_visits_bulk dbUp db visit_data with
      | (.error _, _) => (m, db)
      | (.ok db', _) =>
        let m' := visit_data.foldl
          (fun mm p => (decrement_visit_count cacheUp mm p.1 p.2).2) m
        (m', db')

/-! ### Concrete data for the flush-run scenario of §8 of the spec -/

/-- Cache visit namespace of the spec's flush scenario: counters 5, 3, 0
and a malformed bare key holding 7. -/
def exampleVisitMap : VisitMap :=
  [("visits:abc123", 5), ("visits:def456", 3), ("visits:ghi789", 0), ("visits:", 7)]

/-- Store contents for the flush scenario. -/
def exampleFlushDb : Db :=
  [⟨"abc123", "http://a.example", 10⟩,
   ⟨"def456", "http://b.example", 0⟩,
   ⟨"ghi789", "http://c.example", 2⟩]

/-! ### Helper lemmas about the association-list maps -/

theorem kvLookup_kvErase_self {α : Type} (m : List (String × α)) (k : String) :
    kvLookup (kvErase m k) k = none := by
  induction m with
  | nil => rfl
  | cons p rest ih =>
    by_cases h : p.1 == k
    · simpa [kvErase, List.filter_cons, h] using ih
    · simpa [kvErase, List.filter_cons, h, kvLookup] using ih

theorem kvLookup_kvSet_self {α : Type} (m : List (String × α)) (k : String) (v : α) :
    kvLookup (kvSet m k v) k = some v := by
  induction m with
  | nil => simp [kvSet, kvLookup]
  | cons p rest ih =>
    by_cases hp : p.1 = k
    · simp [kvSet, kvLookup, hp]
    · simp [kvSet, kvLookup, hp, ih]

theorem kvLookup_kvSet_ne {α : Type} (m : List (String × α)) (k k' : String) (v : α)
    (hne : k' ≠ k) : kvLookup (kvSet m k' v) k = kvLookup m k := by
  induction m with
  | nil => simp [kvSet, kvLookup, hne]
  | cons p rest ih =>
    by_cases hp : p.1 = k'
    · simp [kvSet, kvLookup, hp, hne]
    · by_cases hk : p.1 = k
      · simp [kvSet, kvLookup, hp, hk, Ne.symm hne]
      · simp [kvSet, kvLookup, hp, hk, ih]

/-! ### Prefix-matching helper lemma -/

theorem listStartsWith_iff (p s : List Char) :
    listStartsWith p s = true ↔ ∃ t, s = p ++ t := by
  induction p generalizing s with
  | nil => simp [listStartsWith]
  | cons a ps ih =>
    cases s with
    | nil => simp [listStartsWith]
    | cons b bs =>
      simp only [listStartsWith, Bool.and_eq_true, beq_iff_eq, ih, List.cons_append,
        List.cons.injEq]
      constructor
      · rintro ⟨rfl, t, ht⟩
        exact ⟨t, rfl, ht⟩
      · rintro ⟨t, h1, h2⟩
        exact ⟨h1.symm, t, h2⟩

/-! ### Claim theorems -/

/-- C10: the flush job's key parser `extract_short_code` returns a short
code `c` exactly when the key is the concatenation of the prefix
`visits:` and a non-empty suffix `c`; the bare key `visits:` and keys not
starting with `visits:` yield `none`. -/
theorem claim10_extract_short_code_iff (k c : String) :
    extract_short_code k = some c ↔ k = "visits:" ++ c ∧ c ≠ "" := by
  obtain ⟨kd⟩ := k
  obtain ⟨cd⟩ := c
  rw [show ("visits:" ++ String.mk cd : String) = String.mk ("visits:".data ++ cd)
    from rfl]
  by_cases h : listStartsWith "visits:".data (String.mk kd).data = true
  · obtain ⟨t, ht⟩ := (listStartsWith_iff _ _).mp h
    have hkd : kd = "visits:".data ++ t := ht
    subst hkd
    have hdata : (String.mk ("visits:".data ++ t)).data = "visits:".data ++ t := rfl
    rw [hdata] at h
    have h7 : ("visits:".data ++ t).drop 7 = t := List.drop_left' (by decide)
    have hx : extract_short_code (String.mk ("visits:".data ++ t))
        = if String.mk t = "" then none else some (String.mk t) := by
      simp only [extract_short_code, hdata, h7, beq_iff_eq]
      rw [if_pos h]
    rcases t with _ | ⟨a, ts⟩
    · rw [hx, if_pos (show String.mk ([] : List Char) = "" from rfl)]
      constructor
      · intro h'
        exact Option.noConfusion h'
      · rintro ⟨heq, hne⟩
        have hlists : "visits:".data ++ ([] : List Char) = "visits:".data ++ cd :=
          congrArg String.data heq
        have hcd : cd = [] := by simpa using hlists.symm
        have : String.mk cd = "" := by rw [hcd]
        exact absurd this hne
    · have hne' : ¬(String.mk (a :: ts) = "") := by
        intro h'
        exact List.noConfusion (congrArg String.data h')
      rw [hx, if_neg hne']
      constructor
      · intro hsome
        have hcd : a :: ts = cd := congrArg String.data (Option.some.inj hsome)
        rw [← hcd]
        exact ⟨rfl, hne'⟩
      · rintro ⟨heq, hne⟩
        have hcd : a :: ts = cd := by
          have := congrArg String.data heq
          simpa using this
        rw [hcd]
  · have hnone : extract_short_code (String.mk kd) = none := by
      simp only [extract_short_code]
      rw [if_neg h]
    rw [hnone]
    constructor
    · intro h'
      exact Option.noConfusion h'
    · rintro ⟨heq, -⟩
      have hk : kd = "visits:".data ++ cd := congrArg String.data heq
      exact absurd ((listStartsWith_iff _ _).mpr ⟨cd, hk⟩) h

/-- C8: `increment_visits_bulk` with an empty mapping is a no-op: it
returns successfully with the store unchanged, and no pooled connection is
acquired (second component `false`). -/
theorem claim8_bulk_empty_noop (dbUp : Bool) (db : Db) :
    increment_visits_bulk dbUp db [] = (.ok db, false) := rfl

/-- C3: when the bulk store increment fails with `OperationalError`
(store down), the flush run aborts leaving every cache visit counter and
the store exactly as they were, so the next run recomputes the same
deltas from the unchanged cache. -/
theorem claim3_flush_abort_preserves_cache (cacheUp : Bool) (m : VisitMap) (db : Db) :
    flush_main cacheUp false m db = (m, db) := by
  by_cases h1 : (get_all_visit_keys cacheUp m).isEmpty
  · simp [flush_main, h1]
  · by_cases h2 :
      (compute_visit_data cacheUp m (get_all_visit_keys cacheUp m)).isEmpty
    · simp [flush_main, h1, h2]
    · have hb : increment_visits_bulk false db
          (compute_visit_data cacheUp m (get_all_visit_keys cacheUp m))
          = (.error (), true) := by
        unfold increment_visits_bulk
        rw [if_neg (by simpa using h2)]
        rfl
      simp [flush_main, h1, h2, hb]

/-- C7: a `decrement_visit_count` that brings the counter to a value ≤ 0
deletes the underlying `visits:` key, and a subsequent `get_visit_count`
for that code returns 0 (an absent key reads as 0, not an error). -/
theorem claim7_decrement_deletes_key (m : VisitMap) (code : String) (amount : Int)
    (h : (kvLookup m ("visits:" ++ code)).getD 0 - amount ≤ 0) :
    (decrement_visit_count true m code amount).1
      = some ((kvLookup m ("visits:" ++ code)).getD 0 - amount)
    ∧ kvLookup (decrement_visit_count true m code amount).2 ("visits:" ++ code) = none
    ∧ get_visit_count true (decrement_visit_count true m code amount).2 code
      = some 0 := by
  have hd : decrement_visit_count true m code amount
      = (some ((kvLookup m ("visits:" ++ code)).getD 0 - amount),
         kvErase (kvSet m ("visits:" ++ code)
           ((kvLookup m ("visits:" ++ code)).getD 0 - amount)) ("visits:" ++ code)) := by
    simp only [decrement_visit_count, if_true]
    rw [if_pos h]
  refine ⟨by rw [hd], by rw [hd]; exact kvLookup_kvErase_self _ _, ?_⟩
  rw [hd]
  simp [get_visit_count, kvLookup_kvErase_self]

/-- C7 witness: a counter at 2 decremented by 5 is deleted and reads 0. -/
theorem claim7_decrement_deletes_key_witness :
    (decrement_visit_count true [("visits:x", 2)] "x" 5).1 = some (2 - 5)
    ∧ kvLookup (decrement_visit_count true [("visits:x", 2)] "x" 5).2 "visits:x" = none
    ∧ get_visit_count true (decrement_visit_count true [("visits:x", 2)] "x" 5).2 "x"
      = some 0 := by
  have := claim7_decrement_deletes_key [("visits:x", 2)] "x" 5 (by decide)
  simpa using this

/-- C1: contrary to the spec, `resolve_short_code` never touches the
visit-counter namespace: on a cache hit (and on every other path) it
returns the URL with the counters unchanged, and in the concrete cache-hit
run of the repo's own test `test_resolve_short_code_cache_hit` the counter
for `abcd1234` still reads 0 afterwards instead of 1. -/
theorem claim1_resolve_never_increments :
    (∀ (cacheUp dbUp : Bool) (cache : UrlCache) (vm : VisitMap) (db : Db)
      (code : String), (resolve_short_code cacheUp dbUp cache vm db code).2.2 = vm)
    ∧ resolve_short_code true true [("short:abcd1234", "http://example.com")] [] []
        "abcd1234"
      = (.ok "http://example.com", [("short:abcd1234", "http://example.com")], [])
    ∧ get_visit_count true
        (resolve_short_code true true [("short:abcd1234", "http://example.com")] [] []
          "abcd1234").2.2 "abcd1234" = some 0 := by
  refine ⟨?_, by rfl, by decide⟩
  intro cacheUp dbUp cache vm db code
  simp only [resolve_short_code]
  split
  · rfl
  · split
    · rfl
    · split <;> rfl

/-- C2: the flush run over cache counters `visits:abc123 ↦ 5`,
`visits:def456 ↦ 3`, `visits:ghi789 ↦ 0` and the malformed bare key
`visits: ↦ 7` accumulates exactly `{abc123 ↦ 5, def456 ↦ 3}`, hands it to
the single bulk store call, decrements the two flushed counters by
exactly their flushed amounts (deleting them at 0), and never touches the
zero counter or the malformed key. -/
theorem claim2_flush_concrete_run :
    compute_visit_data true exampleVisitMap (get_all_visit_keys true exampleVisitMap)
      = [("abc123", 5), ("def456", 3)]
    ∧ increment_visits_bulk true exampleFlushDb [("abc123", 5), ("def456", 3)]
      = (.ok [⟨"abc123", "http://a.example", 15⟩,
              ⟨"def456", "http://b.example", 3⟩,
              ⟨"ghi789", "http://c.example", 2⟩], true)
    ∧ flush_main true true exampleVisitMap exampleFlushDb
      = ([("visits:ghi789", 0), ("visits:", 7)],
         [⟨"abc123", "http://a.example", 15⟩,
          ⟨"def456", "http://b.example", 3⟩,
          ⟨"ghi789", "http://c.example", 2⟩]) := by
  refine ⟨by decide, by rfl, by decide⟩

/-! ### Retry-loop lemmas for C4 -/

theorem insert_retry_loop_all_collide (insert : Nat → Db → String → InsertResult)
    (gen : Nat → String) (db : Db) (l : List Nat)
    (h : ∀ a, insert a db (gen a) = .uniqueViolation) :
    insert_retry_loop insert gen db l = (.genFailed, l.length) := by
  induction l with
  | nil => rfl
  | cons a rest ih =>
    simp only [insert_retry_loop, h a]
    simp [ih]

theorem insert_retry_loop_error_at (insert : Nat → Db → String → InsertResult)
    (gen : Nat → String) (db : Db) (j : Nat)
    (hcoll : ∀ a, a < j → insert a db (gen a) = .uniqueViolation)
    (herr : insert j db (gen j) = .operationalError) :
    ∀ s n : Nat, s ≤ j → j < s + n →
      insert_retry_loop insert gen db (List.range' s n) = (.dbUnavailable, j - s + 1) := by
  intro s n
  induction n generalizing s with
  | zero => omega
  | succ n ih =>
    intro hs hj
    rw [List.range'_succ]
    by_cases hsj : s = j
    · subst hsj
      simp only [insert_retry_loop, herr]
      simp
    · have hlt : s < j := lt_of_le_of_ne hs hsj
      simp only [insert_retry_loop, hcoll s hlt]
      have hrec := ih (s + 1) (by omega) (by omega)
      simp only [hrec]
      have : j - (s + 1) + 1 + 1 = j - s + 1 := by omega
      simp [this]

/-- C4: the retry loop of `shorten_url`.  If every insert attempt collides
with the unique constraint, `shorten_url` raises
`ShortCodeGenerationFailed` after exactly `max_retries` insert attempts
(first two conjuncts); if instead the first `j - 1` attempts collide and
attempt `j` fails with any other store error, the loop stops with
`dbUnavailable` (mapped to `DatabaseUnavailable`) after exactly `j`
attempts, with no further retries (third conjunct). -/
theorem claim4_retry_policy
    (max_retries : Nat) (gen : Nat → String) (cacheUp : Bool) (cache : UrlCache)
    (db dbE : Db) (url : String)
    (insertE : Nat → Db → String → InsertResult) (j : Nat)
    (hcoll : ∀ a, a < j → insertE a dbE (gen a) = .uniqueViolation)
    (herr : insertE j dbE (gen j) = .operationalError)
    (hj1 : 1 ≤ j) (hj2 : j ≤ max_retries)
    (hmiss : kvLookup cache ("url:" ++ url) = none)
    (hnex : original_url_exists db url = false)
    (hgen : ∀ a, (db.any (fun r => r.short_code == gen a)) = true) :
    shorten_url max_retries gen cacheUp true cache db url
      = (.error .shortCodeGenerationFailed, cache, db)
    ∧ insert_retry_loop (fun _ d c => insert_short_url true d c url) gen db
        (List.range' 1 max_retries) = (.genFailed, max_retries)
    ∧ insert_retry_loop insertE gen dbE (List.range' 1 max_retries)
      = (.dbUnavailable, j) := by
  have hins : ∀ a, insert_short_url true db (gen a) url = .uniqueViolation := by
    intro a
    simp [insert_short_url, hgen a]
  have hloop := insert_retry_loop_all_collide
    (fun _ d c => insert_short_url true d c url) gen db (List.range' 1 max_retries)
    (fun a => hins a)
  have hlen : (List.range' 1 max_retries).length = max_retries := by
    simp [List.length_range']
  refine ⟨?_, by rw [hloop, hlen], ?_⟩
  · simp only [shorten_url, hmiss, hnex, hloop]
    simp
  · have := insert_retry_loop_error_at insertE gen dbE j hcoll herr 1 max_retries
      hj1 (by omega)
    rw [this]
    congr 1
    omega

/-- C4 witness: a generator stuck on the colliding code `aa` exhausts 3
retries; a store that collides once then goes down stops after 2
attempts. -/
theorem claim4_retry_policy_witness :
    shorten_url 3 (fun _ => "aa") true true [] [⟨"aa", "u0", 0⟩] "u1"
      = (.error .shortCodeGenerationFailed, [], [⟨"aa", "u0", 0⟩])
    ∧ insert_retry_loop (fun _ d c => insert_short_url true d c "u1") (fun _ => "aa")
        [⟨"aa", "u0", 0⟩] (List.range' 1 3) = (.genFailed, 3)
    ∧ insert_retry_loop
        (fun a _ _ => if a < 2 then .uniqueViolation else .operationalError)
        (fun _ => "aa") [] (List.range' 1 3) = (.dbUnavailable, 2) :=
  claim4_retry_policy 3 (fun _ => "aa") true [] [⟨"aa", "u0", 0⟩] [] "u1"
    (fun a _ _ => if a < 2 then .uniqueViolation else .operationalError) 2
    (fun a ha => by simp [ha])
    (by decide)
    (by decide) (by decide)
    rfl
    (by decide)
    (fun _ => rfl)

/-- C9: whenever `shorten_url` raises any of its errors, the durable
store is left unchanged — no record for the requested URL is inserted
(failed inserts are rolled back, which the embedding encodes by error
outcomes of `insert_short_url` carrying no store). -/
theorem claim9_shorten_error_leaves_store (max_retries : Nat) (gen : Nat → String)
    (cacheUp dbUp : Bool) (cache : UrlCache) (db : Db) (url : String)
    (e : ShortenError)
    (h : (shorten_url max_retries gen cacheUp dbUp cache db url).1 = .error e) :
    (shorten_url max_retries gen cacheUp dbUp cache db url).2.2 = db := by
  by_cases h1 : (cacheUp && (match kvLookup cache ("url:" ++ url) with
      | some v => !(v == "")
      | none => false)) = true
  · simp [shorten_url, h1]
  · by_cases h2 : (!dbUp) = true
    · simp [shorten_url, h1, h2]
    · by_cases h3 : original_url_exists db url = true
      · simp [shorten_url, h1, h2, h3]
      · rcases hloop : insert_retry_loop
            (fun _ d c => insert_short_url dbUp d c url) gen db
            (List.range' 1 max_retries) with ⟨lr, n⟩
        cases lr with
        | success code db' =>
          simp [shorten_url, h1, h2, h3, hloop] at h
        | genFailed =>
          simp [shorten_url, h1, h2, h3, hloop]
        | dbUnavailable =>
          simp [shorten_url, h1, h2, h3, hloop]

/-- C9 witness: shortening an already-stored URL errors and leaves the
store as it was. -/
theorem claim9_shorten_error_leaves_store_witness :
    (shorten_url 1 (fun _ => "zz") false true [] [⟨"c", "u", 0⟩] "u").2.2
      = [⟨"c", "u", 0⟩] :=
  claim9_shorten_error_leaves_store 1 (fun _ => "zz") false true [] [⟨"c", "u", 0⟩]
    "u" .originalURLAlreadyExists rfl

/-! ### Lemmas for the round-trip claim C5 -/

/-- The two cache namespaces never collide: a `short:*` key is never a
`url:*` key. -/
theorem short_key_ne_url_key (a b : String) : ("short:" ++ a) ≠ ("url:" ++ b) := by
  intro h
  have h2 : ("short:" ++ a).data = ("url:" ++ b).data := congrArg String.data h
  rw [String.data_append, String.data_append] at h2
  have hL : ("short:".data ++ a.data).head? = some 's' := rfl
  have hR : ("url:".data ++ b.data).head? = some 'u' := rfl
  rw [h2] at hL
  exact absurd (Option.some.inj (hL.symm.trans hR)) (by decide)

/-- A successful retry loop over a healthy store appended exactly the new
row, whose code was free in the initial store. -/
theorem insert_retry_loop_success (gen : Nat → String) (db : Db) (url : String)
    (l : List Nat) (code : String) (db' : Db)
    (h : (insert_retry_loop (fun _ d c => insert_short_url true d c url) gen db l).1
      = .success code db') :
    db' = db ++ [⟨code, url, 0⟩]
    ∧ (db.any fun r => r.short_code == code) = false := by
  induction l with
  | nil => exact absurd h (by simp [insert_retry_loop])
  | cons a rest ih =>
    by_cases hc : (db.any fun r => r.short_code == gen a) = true
    · have hu : insert_short_url true db (gen a) url = .uniqueViolation := by
        simp [insert_short_url, hc]
      simp only [insert_retry_loop, hu] at h
      exact ih h
    · have hi : insert_short_url true db (gen a) url
          = .inserted (db ++ [⟨gen a, url, 0⟩]) := by
        simp [insert_short_url, hc]
      simp only [insert_retry_loop, hi] at h
      simp only [LoopResult.success.injEq] at h
      obtain ⟨hcode, hdb⟩ := h
      subst hcode
      exact ⟨hdb.symm, by simpa using hc⟩

/-- Looking up the freshly inserted code in the appended store returns the
inserted URL. -/
theorem get_original_url_append (db : Db) (code url : String)
    (h : (db.any fun r => r.short_code == code) = false) :
    get_original_url (db ++ [⟨code, url, 0⟩]) code = some url := by
  unfold get_original_url
  rw [List.find?_append]
  have hnone : db.find? (fun r => r.short_code == code) = none := by
    rw [List.find?_eq_none]
    intro r hr
    exact (List.any_eq_false.mp h) r hr
  rw [hnone]
  simp [List.find?]

/-- C5: after a first successful `shorten_url` of a URL, shortening the
same URL again raises `OriginalURLAlreadyExists`, and resolving the
returned code yields the original URL (round trip). -/
theorem claim5_shorten_twice_roundtrip (max_retries : Nat) (gen gen2 : Nat → String)
    (cacheUp dbUp : Bool) (cache : UrlCache) (vm : VisitMap) (db : Db)
    (url code : String) (cache1 : UrlCache) (db1 : Db)
    (h : shorten_url max_retries gen cacheUp dbUp cache db url
      = (.ok code, cache1, db1)) :
    (shorten_url max_retries gen2 cacheUp dbUp cache1 db1 url).1
      = .error .originalURLAlreadyExists
    ∧ (resolve_short_code cacheUp dbUp cache1 vm db1 code).1 = .ok url := by
  by_cases h1 : (cacheUp && (match kvLookup cache ("url:" ++ url) with
      | some v => !(v == "")
      | none => false)) = true
  · exact absurd h (by simp [shorten_url, h1])
  cases dbUp with
  | false => exact absurd h (by simp [shorten_url, h1])
  | true =>
    by_cases h3 : original_url_exists db url = true
    · exact absurd h (by simp [shorten_url, h1, h3])
    rcases hloop : insert_retry_loop (fun _ d c => insert_short_url true d c url)
        gen db (List.range' 1 max_retries) with ⟨lr, n⟩
    cases lr with
    | genFailed => exact absurd h (by simp [shorten_url, h1, h3, hloop])
    | dbUnavailable => exact absurd h (by simp [shorten_url, h1, h3, hloop])
    | success code0 db0 =>
      have heq : shorten_url max_retries gen cacheUp true cache db url
          = (.ok code0,
             set_with_ttl cacheUp (set_with_ttl cacheUp cache ("short:" ++ code0) url)
               ("url:" ++ url) code0,
             db0) := by
        simp [shorten_url, h1, h3, hloop]
      rw [heq] at h
      have hcode : code0 = code := Except.ok.inj (congrArg (fun t => t.1) h)
      subst hcode
      have hcache : cache1
          = set_with_ttl cacheUp (set_with_ttl cacheUp cache ("short:" ++ code0) url)
              ("url:" ++ url) code0 :=
        (congrArg (fun t => t.2.1) h).symm
      have hdb1 : db1 = db0 := (congrArg (fun t => t.2.2) h).symm
      obtain ⟨hdb0, hfree⟩ := insert_retry_loop_success gen db url
        (List.range' 1 max_retries) code0 db0 (by rw [hloop])
      subst hcache
      subst hdb1
      subst hdb0
      have hex : original_url_exists (db ++ [⟨code0, url, 0⟩]) url = true := by
        simp [original_url_exists]
      have hget := get_original_url_append db code0 url hfree
      cases cacheUp with
      | false =>
        constructor
        · simp [shorten_url, set_with_ttl, hex]
        · simp [resolve_short_code, set_with_ttl, hget]
      | true =>
        have hukey : kvLookup
            (kvSet (kvSet cache ("short:" ++ code0) url) ("url:" ++ url) code0)
            ("url:" ++ url) = some code0 := kvLookup_kvSet_self _ _ _
        have hskey : kvLookup
            (kvSet (kvSet cache ("short:" ++ code0) url) ("url:" ++ url) code0)
            ("short:" ++ code0) = some url := by
          rw [kvLookup_kvSet_ne _ _ _ _ (short_key_ne_url_key code0 url).symm]
          exact kvLookup_kvSet_self _ _ _
        constructor
        · by_cases hc0 : (code0 == "") = true
          · simp [shorten_url, set_with_ttl, hukey, hc0, hex]
          · simp [shorten_url, set_with_ttl, hukey, hc0]
        · by_cases hu0 : (url == "") = true
          · simp [resolve_short_code, set_with_ttl, hskey, hu0, hget]
          · simp [resolve_short_code, set_with_ttl, hskey, hu0]

/-- C5 witness: shorten a URL into an empty system, then shorten it again
and resolve the returned code. -/
theorem claim5_shorten_twice_roundtrip_witness :
    (shorten_url 1 (fun _ => "zz") true true
        [("short:abc12345", "http://e"), ("url:http://e", "abc12345")]
        [⟨"abc12345", "http://e", 0⟩] "http://e").1
      = .error .originalURLAlreadyExists
    ∧ (resolve_short_code true true
        [("short:abc12345", "http://e"), ("url:http://e", "abc12345")] []
        [⟨"abc12345", "http://e", 0⟩] "abc12345").1 = .ok "http://e" :=
  claim5_shorten_twice_roundtrip 1 (fun _ => "abc12345") (fun _ => "zz") true true
    [] [] [] "http://e" "abc12345"
    [("short:abc12345", "http://e"), ("url:http://e", "abc12345")]
    [⟨"abc12345", "http://e", 0⟩] rfl

/-- C6: with a healthy store, the outcome of `shorten_url` and of
`resolve_short_code` (returned value or business error) is the same
whether every cache operation fails (`cacheUp = false`) or the cache
works (`cacheUp = true`): cache-layer errors never propagate out of the
engine and never change the result.  The two hypotheses say the cache
agrees with the store (cache entries are written only from store
contents, and store rows are never deleted, so every reachable state
satisfies them). -/
theorem claim6_cache_failure_transparent
    (max_retries : Nat) (gen : Nat → String) (cache : UrlCache) (vm : VisitMap)
    (db : Db) (url code : String)
    (hURL : ∀ u v, kvLookup cache ("url:" ++ u) = some v → v ≠ "" →
      original_url_exists db u = true)
    (hSHORT : ∀ c v, kvLookup cache ("short:" ++ c) = some v → v ≠ "" →
      get_original_url db c = some v) :
    (shorten_url max_retries gen true true cache db url).1
      = (shorten_url max_retries gen false true cache db url).1
    ∧ (resolve_short_code true true cache vm db code).1
      = (resolve_short_code false true cache vm db code).1 := by
  constructor
  · rcases hv : kvLookup cache ("url:" ++ url) with _ | v
    · by_cases h3 : original_url_exists db url = true
      · simp [shorten_url, hv, h3]
      · rcases hloop : insert_retry_loop (fun _ d c => insert_short_url true d c url)
            gen db (List.range' 1 max_retries) with ⟨lr, n⟩
        cases lr <;> simp [shorten_url, hv, h3, hloop, set_with_ttl]
    · by_cases hvv : (v == "") = true
      · by_cases h3 : original_url_exists db url = true
        · simp [shorten_url, hv, hvv, h3]
        · rcases hloop : insert_retry_loop (fun _ d c => insert_short_url true d c url)
              gen db (List.range' 1 max_retries) with ⟨lr, n⟩
          cases lr <;> simp [shorten_url, hv, hvv, h3, hloop, set_with_ttl]
      · have hex := hURL url v hv (by simpa using hvv)
        simp [shorten_url, hv, hvv, hex]
  · rcases hv : kvLookup cache ("short:" ++ code) with _ | v
    · rcases hg : get_original_url db code with _ | orig <;>
        simp [resolve_short_code, hv, hg, set_with_ttl]
    · by_cases hvv : (v == "") = true
      · rcases hg : get_original_url db code with _ | orig <;>
          simp [resolve_short_code, hv, hvv, hg, set_with_ttl]
      · have hg := hSHORT code v hv (by simpa using hvv)
        simp [resolve_short_code, hv, hvv, hg]

/-- C6 witness: an empty cache (where the consistency hypotheses hold
vacuously) over a one-row store. -/
theorem claim6_cache_failure_transparent_witness :
    (shorten_url 2 (fun _ => "dd") true true [] [⟨"c", "u", 0⟩] "u2").1
      = (shorten_url 2 (fun _ => "dd") false true [] [⟨"c", "u", 0⟩] "u2").1
    ∧ (resolve_short_code true true [] [] [⟨"c", "u", 0⟩] "c").1
      = (resolve_short_code false true [] [] [⟨"c", "u", 0⟩] "c").1 :=
  claim6_cache_failure_transparent 2 (fun _ => "dd") [] [] [⟨"c", "u", 0⟩] "u2" "c"
    (fun _ _ hv => nomatch hv) (fun _ _ hv => nomatch hv)

end Shortener
